import Mathlib

/-!
Verification development for the STunnel-Pro control plane.

The definitions below are shallow embeddings of the Go sources:
* `internal/models/tunnel.go`, `internal/models/user.go` — data model,
* `internal/services/tunnel.go` (`TunnelService`) — tunnel lifecycle,
* `internal/services/auth.go` (`AuthService`) — authentication,
* `internal/services/websocket.go` (`WebSocketService`) — push bus,
* `internal/api/handlers/tunnel.go` (`TunnelHandler`) — HTTP layer,
* `internal/utils` response helpers (`ErrorResponse`, `PaginatedResponse`).

Machine integers (Go `int`, `int64`) are modelled as `Int`; overflow is not
modelled.  Stateful Go code is modelled by explicit state passing; calls into
gorm/redis are modelled as pure updates of the corresponding state component.
External libraries (bcrypt, JWT) are modelled as function parameters of the
operations that call them.
-/

namespace STunnel

/-! ### Data model (internal/models/tunnel.go) -/

/-- `TunnelStatus` constants from models/tunnel.go. -/
inductive TunnelStatus where
  | inactive
  | connecting
  | active
  | error
  deriving DecidableEq, Repr

/-- `TunnelProtocol` constants from models/tunnel.go. -/
inductive TunnelProtocol where
  | tcp
  | udp
  | ws
  | wss
  | tcpmux
  | wsmux
  | wssmux
  | utcpmux
  | uwsmux
  deriving DecidableEq, Repr

/-- The integer counters of `services.TunnelMetrics` (tunnel.go service file).
The float-valued fields (`Latency`, `CPUUsage`, `MemoryUsage`) and the
`LastUpdated` timestamp are omitted; the four counters named by the spec are
kept. -/
structure TunnelMetrics where
  bytesIn : Int
  bytesOut : Int
  connectionCount : Int
  errorCount : Int
  deriving DecidableEq, Repr

/-- The Go zero value of the counter fields: `createTunnelProcess` builds
`&TunnelMetrics{LastUpdated: time.Now()}`, leaving every counter at its zero
value. -/
def TunnelMetrics.zero : TunnelMetrics :=
  { bytesIn := 0, bytesOut := 0, connectionCount := 0, errorCount := 0 }

/-! ### Tunnel manager state (services.TunnelService)

`TunnelService` holds the tunnel records (via gorm, here the `present`,
`status`, `protocol`, `owner` maps indexed by tunnel id) and the in-process
`activeTunnels` map (here `registry`, carrying the live `TunnelProcess`
counter snapshot).  Tunnel ids are `Nat`. -/

structure MgrState where
  /-- whether a tunnel row with this id exists in the database -/
  present : Nat → Bool
  /-- the stored (database) `status` column of each tunnel -/
  status : Nat → TunnelStatus
  /-- the stored `protocol` column of each tunnel -/
  protocol : Nat → TunnelProtocol
  /-- the stored `user_id` column of each tunnel -/
  owner : Nat → Nat
  /-- `TunnelService.activeTunnels`: live process entry (counter snapshot) per id -/
  registry : Nat → Option TunnelMetrics

/-- Errors returned by the tunnel service operations. -/
inductive MgrErr where
  | notFound
  | alreadyRunning
  | notRunning
  | unsupportedProtocol
  | spawnFailed
  deriving DecidableEq, Repr

/-- `TunnelService.createTunnelProcess`: builds the `stunnel-core` command for
tcp/udp/wss and returns a fresh `TunnelProcess` whose `Metrics` is
`&TunnelMetrics{LastUpdated: time.Now()}` (all counters zero); every other
protocol hits the `default` branch and errors. -/
def createTunnelProcess (p : TunnelProtocol) : Except MgrErr TunnelMetrics :=
  match p with
  | .tcp => .ok TunnelMetrics.zero
  | .udp => .ok TunnelMetrics.zero
  | .wss => .ok TunnelMetrics.zero
  | _ => .error .unsupportedProtocol

/-- `TunnelService.StartTunnel`: fetch the record (`not found` if absent),
reject if an `activeTunnels` entry exists, build the process
(`createTunnelProcess`), start it (`spawnOk` models whether
`process.Process.Start()` succeeds), then update the stored status to
`active` and insert the process into `activeTunnels`.  On any error the state
is unchanged (all writes happen after the last failure point). -/
def startTunnel (s : MgrState) (id : Nat) (spawnOk : Bool) : Except MgrErr MgrState :=
  if s.present id = false then .error .notFound
  else
    match s.registry id with
    | some _ => .error .alreadyRunning
    | none =>
      match createTunnelProcess (s.protocol id) with
      | .error e => .error e
      | .ok m =>
        if spawnOk = false then .error .spawnFailed
        else .ok { s with
          status := fun j => if j = id then .active else s.status j,
          registry := fun j => if j = id then some m else s.registry j }

/-- `TunnelService.StopTunnel`: fetch the record (`not found` if absent),
reject if no `activeTunnels` entry exists, kill the process, update the
stored status to `inactive` and delete the entry. -/
def stopTunnel (s : MgrState) (id : Nat) : Except MgrErr MgrState :=
  if s.present id = false then .error .notFound
  else
    match s.registry id with
    | none => .error .notRunning
    | some _ =>
      .ok { s with
        status := fun j => if j = id then .inactive else s.status j,
        registry := fun j => if j = id then none else s.registry j }

/-- `TunnelService.handleTunnelExit`: on unexpected process exit the monitor
sets the stored status to `error` and deletes the `activeTunnels` entry. -/
def handleTunnelExit (s : MgrState) (id : Nat) : MgrState :=
  { s with
    status := fun j => if j = id then .error else s.status j,
    registry := fun j => if j = id then none else s.registry j }

/-- `TunnelService.updateTunnelMetrics`: the monitor tick increments the live
process counters (the deltas are time-derived in the source; they are
arbitrary parameters here).  Only the registry entry's snapshot changes. -/
def updateTunnelMetrics (s : MgrState) (id : Nat) (dIn dOut : Int) : MgrState :=
  { s with
    registry := fun j =>
      if j = id then
        (s.registry j).map fun m =>
          { m with
            bytesIn := m.bytesIn + dIn,
            bytesOut := m.bytesOut + dOut,
            connectionCount := m.connectionCount + 1 }
      else s.registry j }

/-- One observable step of the manager: a successful start or stop, an
unexpected-exit handling (the monitor goroutine is live exactly while its
entry is registered, so the exit handler fires only for a registered id), or
a metrics tick of a live process. -/
inductive MgrStep : MgrState → MgrState → Prop where
  | start (s s' : MgrState) (id : Nat) (spawnOk : Bool)
      (h : startTunnel s id spawnOk = .ok s') : MgrStep s s'
  | stop (s s' : MgrState) (id : Nat)
      (h : stopTunnel s id = .ok s') : MgrStep s s'
  | exit (s : MgrState) (id : Nat)
      (hlive : (s.registry id).isSome = true) : MgrStep s (handleTunnelExit s id)
  | tick (s : MgrState) (id : Nat) (dIn dOut : Int) :
      MgrStep s (updateTunnelMetrics s id dIn dOut)

/-- Initial manager states: the service starts with an empty `activeTunnels`
map, and every tunnel row is created with status `inactive`
(`TunnelHandler.CreateTunnel` sets `Status: models.TunnelStatusInactive`). -/
def mgrInit (pres : Nat → Bool) (proto : Nat → TunnelProtocol) (own : Nat → Nat) : MgrState :=
  { present := pres
    status := fun _ => .inactive
    protocol := proto
    owner := own
    registry := fun _ => none }

/-- States reachable from an initial state by manager steps. -/
inductive MgrReachable : MgrState → Prop where
  | init (pres : Nat → Bool) (proto : Nat → TunnelProtocol) (own : Nat → Nat) :
      MgrReachable (mgrInit pres proto own)
  | step (s s' : MgrState) (hr : MgrReachable s) (hs : MgrStep s s') : MgrReachable s'

/-- The transition relation claimed by the spec (I3):
`inactive → connecting → {active,error}`, `active → {inactive,error}`,
`error → connecting`. -/
def specAllowedTransition : TunnelStatus → TunnelStatus → Bool
  | .inactive, .connecting => true
  | .connecting, .active => true
  | .connecting, .error => true
  | .active, .inactive => true
  | .active, .error => true
  | .error, .connecting => true
  | _, _ => false

/-- The stored-status transitions the code actually performs: `StartTunnel`
writes `active` directly (from `inactive` or `error`), `StopTunnel` writes
`inactive`, `handleTunnelExit` writes `error`; `connecting` is never stored. -/
def actualTransition : TunnelStatus → TunnelStatus → Bool
  | .inactive, .active => true
  | .error, .active => true
  | .active, .inactive => true
  | .active, .error => true
  | _, _ => false

/-- A concrete initial state: tunnel 0 exists, protocol tcp, owner 7,
status `inactive`, nothing running. -/
def mgrEx0 : MgrState :=
  mgrInit (fun _ => true) (fun _ => .tcp) (fun _ => 7)

/-- The state after a successful `StartTunnel` on tunnel 0 of `mgrEx0`
(total by falling back to `mgrEx0`, which the start theorem shows is not
taken). -/
def mgrEx1 : MgrState :=
  match startTunnel mgrEx0 0 true with
  | .ok s => s
  | .error _ => mgrEx0

/-! ### Tunnel records and validation (models/tunnel.go, TunnelService.validateTunnelConfig) -/

/-- The fields of `models.Tunnel` relevant to the claims. -/
structure TunnelRec where
  id : Nat
  name : String
  userId : Nat
  protocol : TunnelProtocol
  serverIP : String
  serverPort : Int
  targetIP : String
  targetPort : Int
  status : TunnelStatus
  deriving DecidableEq, Repr

/-- `TunnelService.validateTunnelConfig`, checked field by field in source
order; the error strings are those of the source. -/
def validateTunnelConfig (t : TunnelRec) : Except String Unit :=
  if t.name = "" then .error "tunnel name is required"
  else if t.serverIP = "" then .error "server IP is required"
  else if t.serverPort ≤ 0 ∨ t.serverPort > 65535 then .error "invalid server port"
  else if t.targetIP = "" then .error "target IP is required"
  else if t.targetPort ≤ 0 ∨ t.targetPort > 65535 then .error "invalid target port"
  else .ok ()

/-! ### Users, roles and quotas (models/user.go) -/

/-- `UserRole` constants from models/user.go. -/
inductive UserRole where
  | admin
  | moderator
  | user
  | guest
  deriving DecidableEq, Repr

/-- `User.CanPerformAction` from models/user.go. -/
def canPerformAction (r : UserRole) (action : String) : Bool :=
  match r with
  | .admin => true
  | .moderator =>
      ["view_all_tunnels", "manage_users", "view_logs", "manage_tunnels"].contains action
  | .user =>
      ["create_tunnel", "manage_own_tunnels", "view_own_logs", "update_profile"].contains action
  | .guest =>
      ["view_public_info", "update_profile"].contains action

/-- The quota field of `models.UserLimits` the tunnel handler reads. -/
structure UserLimits where
  maxTunnels : Int
  deriving DecidableEq, Repr

/-- The fields of `models.User` the tunnel handler reads. -/
structure CallerRec where
  id : Nat
  role : UserRole
  limits : UserLimits
  deriving DecidableEq, Repr

/-! ### Tunnel creation and quota (TunnelHandler.CreateTunnel / StartTunnel) -/

/-- Errors surfaced by the tunnel handler paths modelled here. -/
inductive HErr where
  | limitExceeded
  | invalidConfig (msg : String)
  | nameConflict
  | recordNotFound
  | accessDenied
  | startFailed (e : MgrErr)
  | createFailed
  deriving DecidableEq, Repr

/-- `TunnelService.GetUserTunnelCount`: row count of tunnels with the given
`user_id`. -/
def getUserTunnelCount (db : List TunnelRec) (uid : Nat) : Nat :=
  (db.filter fun t => t.userId == uid).length

/-- `TunnelHandler.canCreateTunnel`: current count strictly below the
caller's `MaxTunnels`. -/
def canCreateTunnel (db : List TunnelRec) (u : CallerRec) : Bool :=
  (getUserTunnelCount db u.id : Int) < u.limits.maxTunnels

/-- `TunnelService.CreateTunnel`: validate the configuration, reject a
duplicate `(name, user_id)` pair, then insert the row.  The resulting
database is returned alongside so that the no-change-on-error behaviour is
explicit. -/
def serviceCreateTunnel (db : List TunnelRec) (t : TunnelRec) :
    Except HErr TunnelRec × List TunnelRec :=
  match validateTunnelConfig t with
  | .error m => (.error (.invalidConfig m), db)
  | .ok _ =>
    if db.any (fun x => x.name == t.name && x.userId == t.userId) then
      (.error .nameConflict, db)
    else
      (.ok t, db ++ [t])

/-- `TunnelHandler.CreateTunnel` after request binding: quota check via
`canCreateTunnel` (403 "Tunnel limit exceeded"), then the service call with
`UserID` set to the caller and `Status` set to `inactive`. -/
def handlerCreateTunnel (db : List TunnelRec) (u : CallerRec) (t : TunnelRec) :
    Except HErr TunnelRec × List TunnelRec :=
  if canCreateTunnel db u = false then (.error .limitExceeded, db)
  else serviceCreateTunnel db { t with userId := u.id, status := .inactive }

/-- `TunnelHandler.StartTunnel`: fetch the record, check ownership
(`tunnel.UserID == currentUser.ID` or `CanPerformAction("manage_tunnels")`),
then call `TunnelService.StartTunnel`.  No quota is consulted on this path. -/
def handlerStartTunnel (s : MgrState) (u : CallerRec) (id : Nat) (spawnOk : Bool) :
    Except HErr MgrState :=
  if s.present id = false then .error .recordNotFound
  else if s.owner id == u.id || canPerformAction u.role "manage_tunnels" then
    match startTunnel s id spawnOk with
    | .ok s' => .ok s'
    | .error e => .error (.startFailed e)
  else .error .accessDenied

/-- A well-formed tunnel record used for boundary instances, with the two
ports as parameters. -/
def sampleTunnel (sp tp : Int) : TunnelRec :=
  { id := 0, name := "t1", userId := 7, protocol := .tcp,
    serverIP := "127.0.0.1", serverPort := sp,
    targetIP := "10.0.0.1", targetPort := tp, status := .inactive }

/-! ### HTTP response helpers (internal/utils/response.go) -/

/-- `utils.ErrorInfo`. -/
structure ErrorInfo where
  code : String
  message : String
  details : Option String
  deriving DecidableEq, Repr

/-- `utils.APIResponse` as produced for failures (`Data` is absent there). -/
structure APIResponse where
  success : Bool
  message : String
  errorInfo : Option ErrorInfo
  deriving DecidableEq, Repr

/-- `utils.getErrorCode`. -/
def getErrorCode (statusCode : Nat) : String :=
  if statusCode = 400 then "BAD_REQUEST"
  else if statusCode = 401 then "UNAUTHORIZED"
  else if statusCode = 403 then "FORBIDDEN"
  else if statusCode = 404 then "NOT_FOUND"
  else if statusCode = 409 then "CONFLICT"
  else if statusCode = 429 then "RATE_LIMIT_EXCEEDED"
  else if statusCode = 500 then "INTERNAL_SERVER_ERROR"
  else if statusCode = 503 then "SERVICE_UNAVAILABLE"
  else "UNKNOWN_ERROR"

/-- `utils.ErrorResponse`: builds the response body sent to the caller; when
a non-nil `err` is passed, `errorInfo.Details = err.Error()`. -/
def errorResponse (statusCode : Nat) (message : String) (err : Option String) : APIResponse :=
  { success := false
    message := message
    errorInfo := some { code := getErrorCode statusCode, message := message, details := err } }

/-- The `CreateTunnel` handler's failure call site
(`utils.ErrorResponse(c, 500, "Failed to create tunnel", err)` where `err`
is `CreateTunnel`'s wrap `"failed to create tunnel: " + dbErr`). -/
def createTunnelFailureBody (dbErr : String) : APIResponse :=
  errorResponse 500 "Failed to create tunnel" (some ("failed to create tunnel: " ++ dbErr))

/-! ### Pagination (utils.PaginatedResponse, TunnelHandler.GetTunnels) -/

/-- `utils.Pagination`. -/
structure Pagination where
  page : Int
  limit : Int
  total : Int
  totalPages : Int
  hasNext : Bool
  hasPrev : Bool
  deriving DecidableEq, Repr

/-- `utils.PaginatedResponse` pagination arithmetic:
`totalPages := int((total + int64(limit) - 1) / int64(limit))` with Go's
truncated `int64` division, then `HasNext: page < totalPages`,
`HasPrev: page > 1`.  Go panics on division by zero; that case is `none`. -/
def buildPagination (total page limit : Int) : Option Pagination :=
  if limit = 0 then none
  else
    let totalPages := Int.tdiv (total + limit - 1) limit
    some { page := page, limit := limit, total := total, totalPages := totalPages,
           hasNext := page < totalPages, hasPrev := page > 1 }

/-- Decimal digit-string value; `none` when empty or containing a
non-digit. -/
def digitsVal (cs : List Char) : Option Nat :=
  if cs.isEmpty then none
  else cs.foldl
    (fun acc c => acc.bind fun n =>
      if c.isDigit then some (10 * n + (c.toNat - 48)) else none)
    (some 0)

/-- `strconv.Atoi` with the error ignored (`limit, _ := strconv.Atoi(...)`):
optional sign followed by decimal digits; Go's zero result on a parse
failure. -/
def goAtoi (s : String) : Int :=
  match s.data with
  | '-' :: rest => match digitsVal rest with
    | some n => -(n : Int)
    | none => 0
  | '+' :: rest => match digitsVal rest with
    | some n => (n : Int)
    | none => 0
  | cs => match digitsVal cs with
    | some n => (n : Int)
    | none => 0

/-- The `limit` computation of `TunnelHandler.GetTunnels`:
`limit, _ := strconv.Atoi(c.DefaultQuery("limit", "10"))` — the query-string
value when present, `"10"` otherwise, with no further validation. -/
def parseLimitQuery (q : Option String) : Int :=
  match q with
  | none => goAtoi "10"
  | some s => goAtoi s

/-! ### Push bus (internal/services/websocket.go)

The subscriber set `WebSocketService.clients` is an association list from
client id to client; each client's `Send` channel (capacity 256) is the
queue `sendBuf`.  `clientsMux` is modelled explicitly, because
`sendMessage`'s drop path calls `unregisterClient`, which acquires the write
lock: an acquisition that can never succeed returns `none` (the calling
goroutine blocks forever — within a broadcast it itself holds the read lock
and would have to release it first). -/

/-- Capacity of a subscriber's `Send` channel: `make(chan []byte, 256)`. -/
def sendBufCap : Nat := 256

/-- A connected `WebSocketClient`; messages are opaque (`Nat`). -/
structure WsClient where
  userId : Nat
  sendBuf : List Nat
  deriving DecidableEq, Repr

/-- The lock state of `clientsMux` as seen by the running goroutine. -/
structure RWLockState where
  readers : Nat
  writer : Bool
  deriving DecidableEq, Repr

/-- The subscriber set `WebSocketService.clients`. -/
structure WsHub where
  clients : List (Nat × WsClient)
  deriving DecidableEq, Repr

/-- `WebSocketService.unregisterClient`: acquires the `clientsMux` write
lock, then removes the client and closes its channel.  If the lock is held
(in particular by the caller itself), the acquisition never completes:
`none`. -/
def unregisterClient (l : RWLockState) (hub : WsHub) (cid : Nat) : Option WsHub :=
  if l.readers = 0 ∧ l.writer = false then
    some { clients := hub.clients.filter fun p => p.1 != cid }
  else none

/-- `WebSocketClient.sendMessage`: non-blocking send on the buffered channel;
on a full buffer the `default` branch discards the message and calls
`unregisterClient`. -/
def sendMessage (l : RWLockState) (hub : WsHub) (cid : Nat) (m : Nat) : Option WsHub :=
  match hub.clients.find? (fun p => p.1 == cid) with
  | none => some hub
  | some (_, c) =>
    if c.sendBuf.length < sendBufCap then
      some { clients := hub.clients.map fun p =>
        if p.1 == cid then (p.1, { c with sendBuf := c.sendBuf ++ [m] }) else p }
    else
      unregisterClient l hub cid

/-- `WebSocketService.BroadcastToAll`: takes `clientsMux.RLock()` for the
whole iteration and calls `sendMessage` on every client; a `sendMessage`
that never returns makes the broadcast never return (`none`). -/
def broadcastToAll (hub : WsHub) (m : Nat) : Option WsHub :=
  let l : RWLockState := { readers := 1, writer := false }
  hub.clients.foldl (fun acc p => acc.bind fun h => sendMessage l h p.1 m) (some hub)

/-- The lock state of a goroutine holding no lock (e.g. `handleMessage`
replying to a ping). -/
def lockFree : RWLockState := { readers := 0, writer := false }

/-- A hub with a single subscriber whose 256-slot send buffer is full. -/
def wsFullHub : WsHub :=
  { clients := [(0, { userId := 7, sendBuf := List.replicate 256 0 })] }

/-- The same hub with one free slot in the buffer. -/
def wsRoomHub : WsHub :=
  { clients := [(0, { userId := 7, sendBuf := List.replicate 255 0 })] }

/-! ### Authentication (internal/services/auth.go, models/user.go)

Time is unix seconds (`Int`).  bcrypt is external: password hashing is a
parameter `hash`, and `bcrypt.CompareHashAndPassword` a parameter `checkPw`
taking the stored hash and the candidate password.  JWT issuance
(`generateTokens`) is a parameter `tokens`, and refresh-token verification
(`verifyToken`, yielding the user id claim) a parameter `verify`. -/

/-- `UserStatus` constants from models/user.go. -/
inductive UserStatus where
  | active
  | inactive
  | suspended
  | banned
  deriving DecidableEq, Repr

/-- The fields of `models.User` read or written by `AuthService`. -/
structure UserM where
  id : Nat
  username : String
  email : String
  /-- the stored bcrypt password hash -/
  password : String
  status : UserStatus
  failedLoginAttempts : Int
  lockedUntil : Option Int
  lastLoginAt : Option Int
  lastLoginIP : String
  deriving DecidableEq, Repr

/-- `User.IsLocked`: `LockedUntil != nil && LockedUntil.After(time.Now())`. -/
def isLocked (u : UserM) (now : Int) : Bool :=
  match u.lockedUntil with
  | none => false
  | some t => now < t

/-- The `WHERE username = ? OR email = ?` lookup used by `Login` (both
placeholders receive the submitted username). -/
def findUser (db : List UserM) (login : String) : Option UserM :=
  db.find? fun u => u.username == login || u.email == login

/-- `db.Save(&user)`: replace the row with the same id. -/
def saveUser (db : List UserM) (u : UserM) : List UserM :=
  db.map fun x => if x.id == u.id then u else x

/-- `services.RegisterRequest`. -/
structure RegisterReq where
  username : String
  email : String
  password : String
  deriving DecidableEq, Repr

/-- `services.LoginRequest` (the `Remember` flag only changes token
lifetimes, which live in the `tokens` parameter). -/
structure LoginReq where
  username : String
  password : String
  deriving DecidableEq, Repr

/-- `services.LoginResponse`. -/
structure LoginRes where
  user : UserM
  accessToken : String
  refreshToken : String
  expiresIn : Int
  deriving DecidableEq, Repr

/-- `AuthService.Register`: reject an existing username or email, build the
user (status active), hash the password, insert the row, then clear
`user.Password` before returning it. -/
def register (hash : String → String) (db : List UserM) (req : RegisterReq) (newId : Nat) :
    Except String UserM × List UserM :=
  if db.any (fun u => u.username == req.username || u.email == req.email) then
    (.error "username or email already exists", db)
  else
    let stored : UserM :=
      { id := newId, username := req.username, email := req.email,
        password := hash req.password, status := .active,
        failedLoginAttempts := 0, lockedUntil := none,
        lastLoginAt := none, lastLoginIP := "" }
    (.ok { stored with password := "" }, db ++ [stored])

/-- `AuthService.Login`: find the user, reject a locked or non-active
account, verify the password; a failure increments
`FailedLoginAttempts` and, when the new count reaches 5, sets
`LockedUntil = now + 30 minutes`; a success resets the counter, clears the
lock, records the login, and returns the user with `Password` cleared. -/
def login (checkPw : String → String → Bool) (tokens : UserM → String × String × Int)
    (db : List UserM) (req : LoginReq) (now : Int) (ip : String) :
    Except String LoginRes × List UserM :=
  match findUser db req.username with
  | none => (.error "invalid credentials", db)
  | some user =>
    if isLocked user now then (.error "account is locked", db)
    else if user.status ≠ .active then (.error "account is not active", db)
    else if checkPw user.password req.password then
      let user' : UserM :=
        { user with failedLoginAttempts := 0, lockedUntil := none,
                    lastLoginAt := some now, lastLoginIP := ip }
      let t := tokens user'
      (.ok { user := { user' with password := "" },
             accessToken := t.1, refreshToken := t.2.1, expiresIn := t.2.2 },
       saveUser db user')
    else
      let attempts := user.failedLoginAttempts + 1
      let user' : UserM :=
        { user with failedLoginAttempts := attempts,
                    lockedUntil := if 5 ≤ attempts then some (now + 30 * 60)
                                   else user.lockedUntil }
      (.error "invalid credentials", saveUser db user')

/-- `AuthService.RefreshToken`: verify the refresh token (yielding the user
id claim), find the user, reject a non-active account, issue new tokens and
return the user with `Password` cleared. -/
def refreshTokenOp (verify : String → Option Nat) (tokens : UserM → String × String × Int)
    (db : List UserM) (rt : String) : Except String LoginRes :=
  match verify rt with
  | none => .error "invalid refresh token"
  | some uid =>
    match db.find? (fun u => u.id == uid) with
    | none => .error "user not found"
    | some user =>
      if user.status ≠ .active then .error "account is not active"
      else
        let t := tokens user
        .ok { user := { user with password := "" },
              accessToken := t.1, refreshToken := t.2.1, expiresIn := t.2.2 }

/-! ### Theorems -/

/-- A successful `startTunnel` implies: the row exists, no entry was
registered, the process was built, and the new state updates exactly the
status and registry at the started id. -/
theorem startTunnel_ok_elim {s s' : MgrState} {id : Nat} {ok : Bool}
    (h : startTunnel s id ok = .ok s') :
    s.present id = true ∧ s.registry id = none ∧
    ∃ m, createTunnelProcess (s.protocol id) = .ok m ∧
      s' = { s with
        status := fun j => if j = id then .active else s.status j,
        registry := fun j => if j = id then some m else s.registry j } := by
  unfold startTunnel at h
  split at h
  · simp at h
  next hpres =>
    split at h
    · simp at h
    next hnone =>
      split at h
      · simp at h
      next m hcp =>
        split at h
        · simp at h
        next hok =>
          rw [Except.ok.injEq] at h
          subst h
          exact ⟨by simpa using hpres, hnone, m, hcp, rfl⟩

/-- A successful `stopTunnel` implies: the row exists, an entry was
registered, and the new state updates exactly the status and registry at the
stopped id. -/
theorem stopTunnel_ok_elim {s s' : MgrState} {id : Nat}
    (h : stopTunnel s id = .ok s') :
    s.present id = true ∧ (∃ m, s.registry id = some m) ∧
      s' = { s with
        status := fun j => if j = id then .inactive else s.status j,
        registry := fun j => if j = id then none else s.registry j } := by
  unfold stopTunnel at h
  split at h
  · simp at h
  next hpres =>
    split at h
    · simp at h
    next m hsome =>
      rw [Except.ok.injEq] at h
      subst h
      exact ⟨by simpa using hpres, ⟨m, hsome⟩, rfl⟩

/-- The inductive invariant of the manager: the stored status is `active`
exactly when an `activeTunnels` entry exists, and `connecting` is never
stored. -/
def mgrInv (s : MgrState) : Prop :=
  ∀ id, (s.status id = .active ↔ (s.registry id).isSome = true) ∧
    s.status id ≠ .connecting

/-- Every reachable manager state satisfies the invariant. -/
theorem mgrInv_of_reachable {s : MgrState} (h : MgrReachable s) : mgrInv s := by
  induction h with
  | init pres proto own =>
    intro id
    exact ⟨by simp [mgrInit], by simp [mgrInit]⟩
  | step t t' hr hs ih =>
    cases hs with
    | start a id ok h =>
      obtain ⟨hpres, hnone, m, hcp, rfl⟩ := startTunnel_ok_elim h
      intro j
      by_cases hj : j = id
      · subst hj
        exact ⟨by simp, by simp⟩
      · simpa [hj] using ih j
    | stop a id h =>
      obtain ⟨hpres, ⟨m, hsome⟩, rfl⟩ := stopTunnel_ok_elim h
      intro j
      by_cases hj : j = id
      · subst hj
        exact ⟨by simp, by simp⟩
      · simpa [hj] using ih j
    | exit id hlive =>
      intro j
      by_cases hj : j = id
      · subst hj
        exact ⟨by simp [handleTunnelExit], by simp [handleTunnelExit]⟩
      · simpa [handleTunnelExit, hj] using ih j
    | tick id dIn dOut =>
      intro j
      by_cases hj : j = id
      · subst hj
        have := ih j
        constructor
        · simpa [updateTunnelMetrics, Option.isSome_map] using this.1
        · exact this.2
      · simpa [updateTunnelMetrics, hj] using ih j

/-- C2 (confirmed): in every state reachable by start, stop and
unexpected-exit handling, a tunnel whose stored status is `active` or
`connecting` has exactly one live entry under its id in `activeTunnels`
(the map holds at most one entry per id, and the entry is present), and a
tunnel whose status is `inactive` or `error` has none. -/
theorem reachable_status_registry_correspondence (s : MgrState)
    (h : MgrReachable s) (id : Nat) :
    (s.status id = .active ∨ s.status id = .connecting) ↔
      (s.registry id).isSome = true := by
  obtain ⟨hiff, hnc⟩ := mgrInv_of_reachable h id
  constructor
  · rintro (ha | hc)
    · exact hiff.mp ha
    · exact absurd hc hnc
  · intro hsome
    exact Or.inl (hiff.mpr hsome)

/-- Witness for C2 at the concrete reachable state `mgrEx1` (one started
tunnel). -/
theorem reachable_status_registry_correspondence_witness :
    (mgrEx1.status 0 = .active ∨ mgrEx1.status 0 = .connecting) ↔
      (mgrEx1.registry 0).isSome = true :=
  reachable_status_registry_correspondence mgrEx1
    (MgrReachable.step mgrEx0 mgrEx1
      (MgrReachable.init (fun _ => true) (fun _ => .tcp) (fun _ => 7))
      (MgrStep.start mgrEx0 mgrEx1 0 true rfl)) 0

/-- C1 counterexample: a successful `StartTunnel` on an `inactive` record
moves its stored status directly to `active`; the pair
`(inactive, active)` is not an edge of the transition relation the claim
allows. -/
theorem startTunnel_skips_connecting :
    mgrEx0.status 0 = .inactive ∧
    startTunnel mgrEx0 0 true = .ok mgrEx1 ∧
    mgrEx1.status 0 = .active ∧
    specAllowedTransition .inactive .active = false :=
  ⟨rfl, rfl, rfl, rfl⟩

/-- C1 (corrected): every change a manager operation makes to a stored
status is one of the transitions the code actually performs —
`inactive → active` and `error → active` on start (skipping `connecting`),
`active → inactive` on stop, `active → error` on unexpected exit. -/
theorem manager_status_transition_pairs (s s' : MgrState)
    (hr : MgrReachable s) (hs : MgrStep s s') (id : Nat)
    (hne : s.status id ≠ s'.status id) :
    actualTransition (s.status id) (s'.status id) = true := by
  have inv := mgrInv_of_reachable hr
  cases hs with
  | start a id0 ok h =>
    obtain ⟨hpres, hnone, m, hcp, rfl⟩ := startTunnel_ok_elim h
    by_cases hj : id = id0
    · subst hj
      have hna : s.status id ≠ .active := by
        intro ha
        have := (inv id).1.mp ha
        rw [hnone] at this
        simp at this
      have hnc := (inv id).2
      have hafter :
          (fun j => if j = id then TunnelStatus.active else s.status j) id =
            TunnelStatus.active := by simp
      show actualTransition (s.status id)
        ((fun j => if j = id then TunnelStatus.active else s.status j) id) = true
      rw [hafter]
      cases hst : s.status id
      · rfl
      · exact absurd hst hnc
      · exact absurd hst hna
      · rfl
    · exfalso
      apply hne
      simp [hj]
  | stop a id0 h =>
    obtain ⟨hpres, ⟨m, hsome⟩, rfl⟩ := stopTunnel_ok_elim h
    by_cases hj : id = id0
    · subst hj
      have ha : s.status id = .active := by
        apply (inv id).1.mpr
        rw [hsome]
        rfl
      show actualTransition (s.status id)
        ((fun j => if j = id then TunnelStatus.inactive else s.status j) id) = true
      rw [ha]
      simp [actualTransition]
    · exfalso
      apply hne
      simp [hj]
  | exit id0 hlive =>
    by_cases hj : id = id0
    · subst hj
      have ha : s.status id = .active := (inv id).1.mpr hlive
      show actualTransition (s.status id)
        ((handleTunnelExit s id).status id) = true
      rw [ha]
      simp [handleTunnelExit, actualTransition]
    · exfalso
      apply hne
      simp [handleTunnelExit, hj]
  | tick id0 dIn dOut =>
    exact absurd rfl hne

/-- Witness for C1's corrected statement at the concrete start step from
`mgrEx0` to `mgrEx1`. -/
theorem manager_status_transition_pairs_witness :
    actualTransition (mgrEx0.status 0) (mgrEx1.status 0) = true :=
  manager_status_transition_pairs mgrEx0 mgrEx1
    (MgrReachable.init (fun _ => true) (fun _ => .tcp) (fun _ => 7))
    (MgrStep.start mgrEx0 mgrEx1 0 true rfl) 0 (by decide)

/-- `createTunnelProcess` only ever hands out the zero counter snapshot. -/
theorem createTunnelProcess_ok_zero {p : TunnelProtocol} {m : TunnelMetrics}
    (h : createTunnelProcess p = .ok m) : m = TunnelMetrics.zero := by
  cases p <;> simp [createTunnelProcess] at h <;> exact h.symm

/-- C4 (confirmed): a stop immediately followed by a start replaces the
registered instance by a fresh one whose counters (bytes-in, bytes-out,
connection count, error count) are all zero, whatever the previous instance
had accumulated. -/
theorem stop_start_resets_counters (s : MgrState) (id : Nat) (m : TunnelMetrics)
    (hm : s.registry id = some m) (s1 s2 : MgrState)
    (h1 : stopTunnel s id = .ok s1) (h2 : startTunnel s1 id true = .ok s2) :
    s2.registry id = some TunnelMetrics.zero := by
  obtain ⟨_, _, rfl⟩ := stopTunnel_ok_elim h1
  obtain ⟨_, _, m', hcp, rfl⟩ := startTunnel_ok_elim h2
  simp [createTunnelProcess_ok_zero hcp]

/-- A running tunnel whose instance has accumulated nonzero counters. -/
def mgrC4 : MgrState :=
  { present := fun _ => true
    status := fun _ => .active
    protocol := fun _ => .tcp
    owner := fun _ => 7
    registry := fun _ => some { bytesIn := 99, bytesOut := 77, connectionCount := 5, errorCount := 3 } }

/-- `mgrC4` after `StopTunnel 0`. -/
def mgrC4s : MgrState :=
  match stopTunnel mgrC4 0 with
  | .ok s => s
  | .error _ => mgrC4

/-- `mgrC4s` after `StartTunnel 0`. -/
def mgrC4r : MgrState :=
  match startTunnel mgrC4s 0 true with
  | .ok s => s
  | .error _ => mgrC4s

/-- Witness for C4 at the concrete stop-then-start run on `mgrC4`. -/
theorem stop_start_resets_counters_witness :
    mgrC4r.registry 0 = some TunnelMetrics.zero :=
  stop_start_resets_counters mgrC4 0
    { bytesIn := 99, bytesOut := 77, connectionCount := 5, errorCount := 3 }
    rfl mgrC4s mgrC4r rfl rfl

/-- C5 (confirmed): `validateTunnelConfig` succeeds only when both the
server port and the target port lie in `1..65535`; any record with a port
outside that range is rejected, and for an otherwise-valid record the
boundary ports 1 and 65535 are accepted while 0 and 65536 are rejected. -/
theorem validateTunnelConfig_port_bounds :
    (∀ t : TunnelRec, (validateTunnelConfig t).isOk = true →
      1 ≤ t.serverPort ∧ t.serverPort ≤ 65535 ∧
      1 ≤ t.targetPort ∧ t.targetPort ≤ 65535) ∧
    (validateTunnelConfig (sampleTunnel 1 1)).isOk = true ∧
    (validateTunnelConfig (sampleTunnel 65535 65535)).isOk = true ∧
    (validateTunnelConfig (sampleTunnel 0 80)).isOk = false ∧
    (validateTunnelConfig (sampleTunnel 65536 80)).isOk = false ∧
    (validateTunnelConfig (sampleTunnel 80 0)).isOk = false ∧
    (validateTunnelConfig (sampleTunnel 80 65536)).isOk = false := by
  refine ⟨?_, by decide, by decide, by decide, by decide, by decide, by decide⟩
  intro t h
  unfold validateTunnelConfig at h
  split at h
  · simp [Except.isOk, Except.toBool] at h
  split at h
  · simp [Except.isOk, Except.toBool] at h
  split at h
  · simp [Except.isOk, Except.toBool] at h
  split at h
  · simp [Except.isOk, Except.toBool] at h
  split at h
  · simp [Except.isOk, Except.toBool] at h
  next hsp htp =>
    push_neg at hsp htp
    omega

/-- Witness for C5 at a record with both ports at the boundaries. -/
theorem validateTunnelConfig_port_bounds_witness :
    1 ≤ (sampleTunnel 1 65535).serverPort ∧
    (sampleTunnel 1 65535).serverPort ≤ 65535 ∧
    1 ≤ (sampleTunnel 1 65535).targetPort ∧
    (sampleTunnel 1 65535).targetPort ≤ 65535 :=
  validateTunnelConfig_port_bounds.1 (sampleTunnel 1 65535) (by decide)

/-- The caller used in the quota scenarios: role `user`, `max-tunnels = 2`. -/
def callerC3 : CallerRec :=
  { id := 7, role := .user, limits := { maxTunnels := 2 } }

/-- A manager state in which owner 7 already has three tunnels (ids 0..2),
all inactive. -/
def mgrC3 : MgrState :=
  { present := fun i => decide (i < 3)
    status := fun _ => .inactive
    protocol := fun _ => .tcp
    owner := fun _ => 7
    registry := fun _ => none }

/-- Two stored tunnels of owner 7, used for the create-side quota witness. -/
def dbC3 : List TunnelRec := [sampleTunnel 80 80, sampleTunnel 81 81]

/-- C3 counterexample: with `max-tunnels = 2` and three tunnels already
owned (ids 0, 1, 2 of `mgrC3` all belong to caller 7), starting one of them
succeeds — `StartTunnel` performs no quota check at all. -/
theorem startTunnel_ignores_quota :
    ((List.range 3).filter
        (fun i => mgrC3.present i && mgrC3.owner i == callerC3.id)).length = 3 ∧
    callerC3.limits.maxTunnels = 2 ∧
    (handlerStartTunnel mgrC3 callerC3 0 true).isOk = true := by
  refine ⟨by decide, by decide, ?_⟩
  rfl

/-- C3 (corrected): the `max-tunnels` quota is enforced on create only — a
create by an owner at or over the quota is rejected with the limit error and
the stored tunnels are unchanged — while the start path is entirely
independent of the caller's limits. -/
theorem quota_enforced_on_create_only :
    (∀ (db : List TunnelRec) (u : CallerRec) (t : TunnelRec),
      u.limits.maxTunnels ≤ (getUserTunnelCount db u.id : Int) →
      handlerCreateTunnel db u t = (.error .limitExceeded, db)) ∧
    (∀ (s : MgrState) (u : CallerRec) (lims : UserLimits) (id : Nat) (ok : Bool),
      handlerStartTunnel s { u with limits := lims } id ok =
        handlerStartTunnel s u id ok) := by
  constructor
  · intro db u t h
    have hcc : canCreateTunnel db u = false := by
      simp [canCreateTunnel]
      omega
    simp [handlerCreateTunnel, hcc]
  · intro s u lims id ok
    rfl

/-- Witness for C3's corrected statement: caller 7 (`max-tunnels = 2`)
already owns the two tunnels of `dbC3`, so a further create is rejected and
the database is unchanged. -/
theorem quota_enforced_on_create_only_witness :
    handlerCreateTunnel dbC3 callerC3 (sampleTunnel 9 9) =
      (.error .limitExceeded, dbC3) :=
  quota_enforced_on_create_only.1 dbC3 callerC3 (sampleTunnel 9 9) (by decide)

/-- C7 counterexample: two internal failures of the same kind (HTTP 500,
"Failed to create tunnel") that differ only in the wrapped database error
text produce different response bodies — the internal text flows into
`errorInfo.details`. -/
theorem error_details_differ_counterexample :
    createTunnelFailureBody "pq: connection refused" ≠
      createTunnelFailureBody "pq: duplicate key value" := by
  decide

/-- C7 (corrected): `ErrorResponse` copies the internal error text verbatim
into the `details` field of the response body, so responses of the same kind
with different internal texts always differ. -/
theorem error_response_exposes_details (code : Nat) (msg e : String) :
    (errorResponse code msg (some e)).errorInfo =
      some { code := getErrorCode code, message := msg, details := some e } ∧
    ∀ e2 : String, e ≠ e2 →
      errorResponse code msg (some e) ≠ errorResponse code msg (some e2) := by
  refine ⟨rfl, ?_⟩
  intro e2 hne heq
  apply hne
  simpa [errorResponse] using heq

/-- Witness for C7's corrected statement at the `CreateTunnel` failure call
site's status code and message. -/
theorem error_response_exposes_details_witness :
    (errorResponse 500 "Failed to create tunnel" (some "pq: down")).errorInfo =
      some { code := getErrorCode 500, message := "Failed to create tunnel",
             details := some "pq: down" } ∧
    errorResponse 500 "Failed to create tunnel" (some "pq: down") ≠
      errorResponse 500 "Failed to create tunnel" (some "pq: up") :=
  ⟨(error_response_exposes_details 500 "Failed to create tunnel" "pq: down").1,
   (error_response_exposes_details 500 "Failed to create tunnel" "pq: down").2
     "pq: up" (by decide)⟩

set_option maxRecDepth 4000 in
/-- C6 (code_bug): publishing to a subscriber whose 256-slot send buffer is
full does not drop the message and unregister the subscriber — the
`default` branch of `sendMessage` calls `unregisterClient`, which acquires
the `clientsMux` write lock while the broadcast still holds the read lock,
so the publisher blocks forever (`none`).  With room in the buffer the
broadcast delivers, and the intended drop-and-remove does work from a call
site that holds no lock. -/
theorem broadcast_full_buffer_blocks :
    broadcastToAll wsFullHub 5 = none ∧
    broadcastToAll wsRoomHub 5 =
      some { clients := [(0, { userId := 7, sendBuf := List.replicate 255 0 ++ [5] })] } ∧
    sendMessage lockFree wsFullHub 0 5 = some { clients := [] } :=
  ⟨rfl, rfl, rfl⟩

/-- C10 (confirmed): for `limit ≥ 1` and a non-negative total, the reported
`total_pages` is the ceiling of `total / limit` (characterised by
`(total_pages - 1) * limit < total ≤ total_pages * limit`), `has_next` holds
exactly when `page < total_pages` and `has_prev` exactly when `page > 1`;
the division is unguarded, so `limit = 0` — which the list endpoint's
query-string parsing passes through unchanged — reaches the division by
zero (`none`). -/
theorem pagination_pages_and_div_by_zero :
    (∀ total page limit : Int, 0 ≤ total → 1 ≤ limit →
      ∀ p, buildPagination total page limit = some p →
        (total ≤ p.totalPages * limit ∧ (p.totalPages - 1) * limit < total) ∧
        (p.hasNext = true ↔ p.page < p.totalPages) ∧
        (p.hasPrev = true ↔ 1 < p.page)) ∧
    (∀ total page : Int, buildPagination total page 0 = none) ∧
    parseLimitQuery (some "0") = 0 := by
  refine ⟨?_, ?_, by decide⟩
  · intro total page limit htot hlim p hp
    have hlim0 : limit ≠ 0 := by omega
    unfold buildPagination at hp
    rw [if_neg hlim0, Option.some.injEq] at hp
    subst hp
    have htd : Int.tdiv (total + limit - 1) limit = (total + limit - 1) / limit :=
      Int.tdiv_eq_ediv (by omega) (by omega)
    refine ⟨?_, by simp, by simp⟩
    rw [htd]
    have hdm := Int.ediv_add_emod (total + limit - 1) limit
    have hm0 : 0 ≤ (total + limit - 1) % limit := Int.emod_nonneg _ hlim0
    have hml : (total + limit - 1) % limit < limit := Int.emod_lt_of_pos _ (by omega)
    constructor
    · nlinarith [hdm, hm0, hml]
    · nlinarith [hdm, hm0, hml]
  · intro total page
    simp [buildPagination]

/-- Witness for C10 at `total = 5`, `page = 2`, `limit = 2`
(`total_pages = 3`). -/
theorem pagination_pages_witness :
    (5 ≤ (3 : Int) * 2 ∧ ((3 : Int) - 1) * 2 < 5) ∧
    ((decide ((2 : Int) < 3) : Bool) = true ↔ (2 : Int) < 3) ∧
    ((decide ((1 : Int) < 2) : Bool) = true ↔ (1 : Int) < 2) :=
  pagination_pages_and_div_by_zero.1 5 2 2 (by decide) (by decide)
    { page := 2, limit := 2, total := 5, totalPages := 3,
      hasNext := decide ((2 : Int) < 3), hasPrev := decide ((1 : Int) < 2) } rfl

/-- C8 (confirmed): every successful `Register`, `Login` and `RefreshToken`
returns a user value whose `Password` field is the empty string — the stored
hash is cleared before the value is handed back, for every hashing,
password-check and token-issuing function. -/
theorem auth_success_returns_blank_password :
    (∀ (hash : String → String) (db : List UserM) (req : RegisterReq)
        (newId : Nat) (u : UserM) (db' : List UserM),
      register hash db req newId = (.ok u, db') → u.password = "") ∧
    (∀ (checkPw : String → String → Bool) (tokens : UserM → String × String × Int)
        (db : List UserM) (req : LoginReq) (now : Int) (ip : String)
        (res : LoginRes) (db' : List UserM),
      login checkPw tokens db req now ip = (.ok res, db') →
      res.user.password = "") ∧
    (∀ (verify : String → Option Nat) (tokens : UserM → String × String × Int)
        (db : List UserM) (rt : String) (res : LoginRes),
      refreshTokenOp verify tokens db rt = .ok res → res.user.password = "") := by
  refine ⟨?_, ?_, ?_⟩
  · intro hash db req newId u db' h
    unfold register at h
    split at h
    · simp at h
    · rw [Prod.mk.injEq] at h
      obtain ⟨h1, _⟩ := h
      rw [Except.ok.injEq] at h1
      subst h1
      rfl
  · intro checkPw tokens db req now ip res db' h
    unfold login at h
    split at h
    · simp at h
    next user hfind =>
      split at h
      · simp at h
      split at h
      · simp at h
      split at h
      · rw [Prod.mk.injEq] at h
        obtain ⟨h1, _⟩ := h
        rw [Except.ok.injEq] at h1
        subst h1
        rfl
      · simp at h
  · intro verify tokens db rt res h
    unfold refreshTokenOp at h
    split at h
    · simp at h
    next uid hv =>
      split at h
      · simp at h
      next user hfind =>
        split at h
        · simp at h
        · rw [Except.ok.injEq] at h
          subst h
          rfl

/-- The password-hash parameter used in the concrete auth runs. -/
def hashEx : String → String := fun s => "h:" ++ s

/-- The password-check parameter: the stored hash matches the hash of the
candidate. -/
def checkPwEx : String → String → Bool := fun stored cand => stored == hashEx cand

/-- The token-issuing parameter. -/
def tokensEx : UserM → String × String × Int := fun _ => ("at0", "rt0", 3600)

/-- The refresh-token verification parameter: `"rt0"` carries user id 1. -/
def verifyEx : String → Option Nat := fun s => if s == "rt0" then some 1 else none

/-- A stored user row (id 1, active, hashed password, no failures). -/
def userEx : UserM :=
  { id := 1, username := "alice", email := "a@example.com",
    password := hashEx "secretpw", status := .active,
    failedLoginAttempts := 0, lockedUntil := none,
    lastLoginAt := none, lastLoginIP := "" }

/-- The register request of the concrete run. -/
def regReqEx : RegisterReq :=
  { username := "alice", email := "a@example.com", password := "secretpw" }

/-- The login request of the concrete run. -/
def loginReqEx : LoginReq := { username := "alice", password := "secretpw" }

/-- The user returned by the concrete `register` run. -/
def regUserEx : UserM :=
  match (register hashEx [] regReqEx 1).1 with
  | .ok u => u
  | .error _ => userEx

/-- The response of the concrete successful `login` run. -/
def loginResEx : LoginRes :=
  match (login checkPwEx tokensEx [userEx] loginReqEx 1000 "1.2.3.4").1 with
  | .ok r => r
  | .error _ => { user := userEx, accessToken := "", refreshToken := "", expiresIn := 0 }

/-- The response of the concrete `refreshTokenOp` run. -/
def refreshResEx : LoginRes :=
  match refreshTokenOp verifyEx tokensEx [userEx] "rt0" with
  | .ok r => r
  | .error _ => { user := userEx, accessToken := "", refreshToken := "", expiresIn := 0 }

/-- Witness for C8 on the three concrete successful runs. -/
theorem auth_success_returns_blank_password_witness :
    regUserEx.password = "" ∧ loginResEx.user.password = "" ∧
      refreshResEx.user.password = "" :=
  ⟨auth_success_returns_blank_password.1 hashEx [] regReqEx 1 regUserEx
      (register hashEx [] regReqEx 1).2 rfl,
   auth_success_returns_blank_password.2.1 checkPwEx tokensEx [userEx] loginReqEx
      1000 "1.2.3.4" loginResEx
      (login checkPwEx tokensEx [userEx] loginReqEx 1000 "1.2.3.4").2 rfl,
   auth_success_returns_blank_password.2.2 verifyEx tokensEx [userEx] "rt0"
      refreshResEx rfl⟩

/-- C9 (confirmed): (a) the fifth consecutive failed password attempt (the
stored counter reaching 5 on this failure) saves the user with a lock
expiring 30 minutes in the future; (b) while the lock time is in the
future, every login attempt — whatever the submitted password and whatever
the password check would say — fails with the locked-account error and no
row is written; (c) a successful login saves the user with the counter
reset to zero and the lock cleared, and returns it so. -/
theorem login_lockout_behaviour :
    (∀ (checkPw : String → String → Bool) (tokens : UserM → String × String × Int)
        (db : List UserM) (u : UserM) (req : LoginReq) (now : Int) (ip : String),
      findUser db req.username = some u →
      isLocked u now = false →
      u.status = .active →
      checkPw u.password req.password = false →
      u.failedLoginAttempts = 4 →
      login checkPw tokens db req now ip =
        (.error "invalid credentials",
         saveUser db { u with failedLoginAttempts := 5,
                              lockedUntil := some (now + 30 * 60) })) ∧
    (∀ (checkPw : String → String → Bool) (tokens : UserM → String × String × Int)
        (db : List UserM) (u : UserM) (req : LoginReq) (now : Int) (ip : String),
      findUser db req.username = some u →
      isLocked u now = true →
      login checkPw tokens db req now ip = (.error "account is locked", db)) ∧
    (∀ (checkPw : String → String → Bool) (tokens : UserM → String × String × Int)
        (db : List UserM) (u : UserM) (req : LoginReq) (now : Int) (ip : String)
        (res : LoginRes) (db' : List UserM),
      findUser db req.username = some u →
      login checkPw tokens db req now ip = (.ok res, db') →
      res.user.failedLoginAttempts = 0 ∧ res.user.lockedUntil = none ∧
      db' = saveUser db { u with failedLoginAttempts := 0, lockedUntil := none,
                                 lastLoginAt := some now, lastLoginIP := ip }) := by
  refine ⟨?_, ?_, ?_⟩
  · intro checkPw tokens db u req now ip hfind hlock hstatus hpw hatt
    simp [login, hfind, hlock, hstatus, hpw, hatt]
  · intro checkPw tokens db u req now ip hfind hlock
    simp [login, hfind, hlock]
  · intro checkPw tokens db u req now ip res db' hfind h
    unfold login at h
    split at h
    · simp at h
    next user hfind2 =>
      rw [hfind, Option.some.injEq] at hfind2
      subst hfind2
      split at h
      · simp at h
      split at h
      · simp at h
      split at h
      · rw [Prod.mk.injEq] at h
        obtain ⟨h1, h2⟩ := h
        rw [Except.ok.injEq] at h1
        subst h1
        subst h2
        exact ⟨rfl, rfl, rfl⟩
      · simp at h

/-- The user row one failed attempt away from the lock. -/
def userC9 : UserM := { userEx with failedLoginAttempts := 4 }

/-- A currently locked user row (lock expires at time 2000). -/
def userLk : UserM := { userEx with lockedUntil := some 2000 }

/-- A login request with a wrong password. -/
def loginReqBad : LoginReq := { username := "alice", password := "WRONG" }

/-- Witness for C9: the fifth failure locks until `1000 + 30 * 60`; a locked
account rejects even the correct password with the locked error; the
successful run of `loginResEx` resets the counter and clears the lock. -/
theorem login_lockout_behaviour_witness :
    login checkPwEx tokensEx [userC9] loginReqBad 1000 "1.2.3.4" =
      (.error "invalid credentials",
       saveUser [userC9] { userC9 with failedLoginAttempts := 5,
                                       lockedUntil := some (1000 + 30 * 60) }) ∧
    login checkPwEx tokensEx [userLk] loginReqEx 1000 "1.2.3.4" =
      (.error "account is locked", [userLk]) ∧
    (loginResEx.user.failedLoginAttempts = 0 ∧ loginResEx.user.lockedUntil = none ∧
     (login checkPwEx tokensEx [userEx] loginReqEx 1000 "1.2.3.4").2 =
       saveUser [userEx] { userEx with failedLoginAttempts := 0, lockedUntil := none,
                                       lastLoginAt := some 1000,
                                       lastLoginIP := "1.2.3.4" }) :=
  ⟨login_lockout_behaviour.1 checkPwEx tokensEx [userC9] userC9 loginReqBad 1000
      "1.2.3.4" rfl rfl rfl (by decide) rfl,
   login_lockout_behaviour.2.1 checkPwEx tokensEx [userLk] userLk loginReqEx 1000
      "1.2.3.4" rfl rfl,
   login_lockout_behaviour.2.2 checkPwEx tokensEx [userEx] userEx loginReqEx 1000
      "1.2.3.4" loginResEx
      (login checkPwEx tokensEx [userEx] loginReqEx 1000 "1.2.3.4").2 rfl rfl⟩

end STunnel
